import Mathlib

/-!
Verification of the auto_crypto job execution and persistence framework.

Shallow embedding of `library/job.py` (Job, JobStatus, Signal, StoredValue,
do_work / finish_and_return_code) and `library/database.py` (SQL generation:
conditions, columns, insert/update/select, sortby ordering).

Conventions of the embedding:
- Python numbers are modelled as rationals (`PyValue.int` / `PyValue.float`
  keep the isinstance distinction the code branches on); Python's built-in
  `round` is round-half-to-even (`pyRound`).
- Stateful methods become functions from the old state to the new state plus
  the database rows / writes they emit; `raise` becomes `Except.error`.
- SQL text is generated exactly as the Python string templates produce it.
-/

namespace AutoCrypto

/-- A Python value as it flows through the job layer: the code branches on
`isinstance(v, float)` / `isinstance(v, int)` / `str`, so the embedding keeps
those apart. Numeric payloads are rationals. -/
inductive PyValue where
  | str (s : String)
  | int (n : Int)
  | float (q : ℚ)
  | none
deriving DecidableEq, Repr

/-- Round-half-to-even to the nearest integer, as Python's built-in `round`
does at precision 0. -/
def roundHalfEven (q : ℚ) : Int :=
  let fl := ⌊q⌋
  let frac := q - fl
  if frac < 1 / 2 then fl
  else if 1 / 2 < frac then fl + 1
  else if fl % 2 = 0 then fl else fl + 1

/-- Python's `round(number, dp)` for positive `dp`: scale, round half to even,
unscale. Binary floating-point representation artifacts are abstracted away;
the decimal values used by this code are exact. -/
def pyRound (q : ℚ) (dp : Nat) : ℚ :=
  ((roundHalfEven (q * 10 ^ dp) : Int) : ℚ) / 10 ^ dp

/-- Python's `str.upper()` on the ASCII strings used for statuses. -/
def pyUpper (s : String) : String :=
  String.mk (s.data.map Char.toUpper)

/-- Python truthiness of an optional string (`if self.error:`): `None` and the
empty string are falsy. -/
def pyTruthy : Option String → Bool
  | Option.none => false
  | some s => if s = "" then false else true

namespace JobStatus

/-- JobStatus.SUCCESS_CODE from `job.py`. -/
def SUCCESS_CODE : Int := 0

/-- JobStatus.FAIL_CODE from `job.py`. -/
def FAIL_CODE : Int := 1

def INITIATED : String := "INITIATED"

def REQUESTING : String := "REQUESTING_DATA"

def CALCULATING : String := "CALCULATING"

def FAILED : String := "FAILED"

def SUCCESS : String := "SUCCESS"

/-- JobStatus.VALID: the fixed set of allowed status strings. -/
def VALID : List String := [INITIATED, REQUESTING, CALCULATING, FAILED, SUCCESS]

end JobStatus

/-- JobStatus.is_valid: raises unless `status_string.upper()` is in the fixed
set (the raised message is the unformatted template from the source). -/
def isValid (statusString : String) : Except String Bool :=
  if pyUpper statusString ∈ JobStatus.VALID then Except.ok true
  else Except.error "\x7b\x7d is an invalid status!"

/-- Database.ALL_CHAR. -/
def ALL_CHAR : String := "*"

/-- The double-quote character, as it appears in the SQL templates. -/
def dquote : Char := Char.ofNat 34

/-- The single-quote character, as it appears in the SQL templates. -/
def squote : Char := Char.ofNat 39

/-- A value appearing in a where-condition mapping: either a list (rendered as
an `in (...)` membership clause) or a scalar (rendered, via `str`, as an
equality against a double-quoted literal). -/
inductive CondVal where
  | vlist (vs : List String)
  | scalar (s : String)
deriving DecidableEq, Repr

/-- A condition argument: a raw SQL string or a mapping from column to value
(Python dict iteration order is insertion order, modelled as a list). -/
inductive Condition where
  | raw (s : String)
  | dict (d : List (String × CondVal))
deriving DecidableEq, Repr

/-- Database._parse_where_dict: renders each entry (list values as
`col in (v1,v2)`, scalars as `col = "v"`) and joins the entries with
`" AND "`; an empty dict yields the empty string. -/
def parseWhereDict (whereDict : List (String × CondVal)) : String :=
  let whereList := whereDict.map fun cv =>
    match cv.2 with
    | CondVal.vlist vs => cv.1 ++ " in (" ++ String.intercalate "," vs ++ ")"
    | CondVal.scalar v => cv.1 ++ " = \"" ++ v ++ "\""
  if whereList.isEmpty then "" else String.intercalate " AND " whereList

/-- Database._generate_condition: `None` yields no clause; a dict is parsed by
`_parse_where_dict`; the result is spliced into `CONDITION_TEMPLATE`
(`' WHERE {}'`). -/
def generateCondition : Option Condition → String
  | Option.none => ""
  | some (Condition.raw s) => " WHERE " ++ s
  | some (Condition.dict d) => " WHERE " ++ parseWhereDict d

/-- Python's `dirty_string.replace('"', "'")`: a single-character pattern
replace is a character map. -/
def replaceQuote (s : String) : String :=
  String.mk (s.data.map fun c => if c = dquote then squote else c)

/-- Database._clean_string: `None` becomes the text `null`, everything else is
stringified; double quotes are replaced by single quotes and the result is
wrapped in double quotes. -/
def cleanString (dirtyString : Option String) : String :=
  let d := match dirtyString with | Option.none => "null" | some s => s
  "\"" ++ replaceQuote d ++ "\""

/-- The `values` argument of Database._generate_columns: `None`, a dict, a
bare scalar, or a list of column names. -/
inductive ColumnsArg where
  | all
  | dict (values : List (String × Option String))
  | single (value : String)
  | vlist (values : List String)
deriving DecidableEq, Repr

/-- Database._generate_columns: `None` gives `*`; a dict gives
`"col"=<cleaned value>` pairs; a scalar or list gives the names; entries are
joined with `,`. -/
def generateColumns : ColumnsArg → String
  | ColumnsArg.all => ALL_CHAR
  | ColumnsArg.dict values =>
      String.intercalate ","
        (values.map fun cv => "\"" ++ cv.1 ++ "\"=" ++ cleanString cv.2)
  | ColumnsArg.single value => value
  | ColumnsArg.vlist values => String.intercalate "," values

/-- QUERY_TEMPLATES['sortby_suffix'] applied to a condition string and a
column: appends the `ORDER BY CASE ... END DESC` clause with the
14-character `Z` sentinel substituted for null. -/
def sortbySuffix (conditionString sortby : String) : String :=
  conditionString ++ " ORDER BY CASE WHEN " ++ sortby ++ " IS null THEN \x27ZZZZZZZZZZZZZZ\x27 else " ++ sortby ++ " END DESC"

/-- Database.select with `return_sql`: the SQL text built from the select (or
select-distinct) template, the rendered columns, the condition and the
optional sortby suffix. -/
def selectSql (table : String) (columns : ColumnsArg) (condition : Option Condition)
    (sortby : Option String) (distinct : Bool) : String :=
  let conditionString := generateCondition condition
  let conditionString := match sortby with
    | some col => sortbySuffix conditionString col
    | Option.none => conditionString
  (if distinct then "SELECT DISTINCT " else "SELECT ") ++
    generateColumns columns ++ " FROM " ++ table ++ conditionString ++ ";"

/-- One value as Database.insert renders it: `'null' if v is None else
'"{}"'.format(v)` — note: no escaping of double quotes inside the value. -/
def insertValue : Option String → String
  | Option.none => "null"
  | some v => "\"" ++ v ++ "\""

/-- Database.insert with `return_sql`: column names joined with `,`, values
rendered by `insertValue`, spliced into `INSERT INTO {} ({}) VALUES ({});`. -/
def insertSql (table : String) (values : List (String × Option String)) : String :=
  let columns := String.intercalate "," (values.map Prod.fst)
  let vals := String.intercalate "," (values.map fun kv => insertValue kv.2)
  "INSERT INTO " ++ table ++ " (" ++ columns ++ ") VALUES (" ++ vals ++ ");"

/-- Database.update with `return_sql`: `UPDATE {} SET {}{};` over the
dict-rendered columns and the condition. -/
def updateSql (table : String) (valuesDict : List (String × Option String))
    (condition : Option Condition) : String :=
  "UPDATE " ++ table ++ " SET " ++ generateColumns (ColumnsArg.dict valuesDict) ++
    generateCondition condition ++ ";"

/-- The sentinel the sortby clause substitutes for null. -/
def NULL_SENTINEL : String := "ZZZZZZZZZZZZZZ"

/-- The key the generated `CASE WHEN col IS null THEN 'ZZZZZZZZZZZZZZ' else
col END` expression computes for a row's sortby column. -/
def sortKey : Option String → String
  | Option.none => NULL_SENTINEL
  | some s => s

/-- Strict lexicographic comparison on character lists: the order sqlite's
default BINARY collation gives TEXT values (UTF-8 byte order coincides with
code-point order). -/
def charListLt : List Char → List Char → Bool
  | _, [] => false
  | [], _ :: _ => true
  | a :: as, b :: bs => a < b || (a = b && charListLt as bs)

/-- Non-strict BINARY-collation comparison on strings. -/
def strLeB (a b : String) : Bool := a = b || charListLt a.data b.data

/-- Insert a row into a list already sorted by descending sort key, keeping it
descending. -/
def insertRowDesc (r : Option String) : List (Option String) → List (Option String)
  | [] => [r]
  | x :: xs =>
      if strLeB (sortKey x) (sortKey r) then r :: x :: xs
      else x :: insertRowDesc r xs

/-- Semantics of the generated `ORDER BY CASE ... END DESC` clause: the result
rows sorted by their `sortKey`, largest first, under sqlite's default BINARY
collation. Each row is represented by its sortby column (`none` = SQL null). -/
def orderBySortbyDesc : List (Option String) → List (Option String)
  | [] => []
  | x :: xs => insertRowDesc x (orderBySortbyDesc xs)

/-- Modelled from the spec's words, for refinement comparison with
`generateCondition`: "condition is either a raw string or a mapping from
column to scalar-or-list; list values render as an `IN (...)` clause, scalars
as equality; multiple mapping entries are ANDed"; an absent condition produces
no WHERE clause. -/
def conditionClauseSpec : Option Condition → String
  | Option.none => ""
  | some (Condition.raw s) => " WHERE " ++ s
  | some (Condition.dict d) =>
      " WHERE " ++ String.intercalate " AND "
        (d.map fun cv =>
          match cv.2 with
          | CondVal.vlist vs => cv.1 ++ " in (" ++ String.intercalate "," vs ++ ")"
          | CondVal.scalar v => cv.1 ++ " = \"" ++ v ++ "\"")

/-- In-memory state of a `Signal` instance: `_previous_action`, `name`,
`action`, `confidence` (the last two hydrated by `_load` from the most recent
prior row, `None` when absent). -/
structure SignalState where
  previousAction : Option String
  name : String
  action : Option String
  confidence : Option ℚ
deriving DecidableEq, Repr

/-- In-memory state of a `Job` relevant to the verified claims: `status`,
`error`, the run timestamp (seconds since epoch), its `Signal`, and the
configured recipient address. -/
structure Job where
  status : Option String
  error : Option String
  runDatetime : Int
  signal : SignalState
  email : String
deriving DecidableEq, Repr

/-- The values dict `{'status': ..., 'seconds_elapsed': ...}` that
`Job.set_status` persists to the job's own row. -/
structure StatusWrite where
  status : String
  secondsElapsed : Int
deriving DecidableEq, Repr

/-- Job.set_status: assigns `self.status` first, then validates; on a valid
status it computes elapsed seconds from the run timestamp and emits the row
update, on an invalid one the validation error propagates and nothing is
written. `now` models `datetime.utcnow()` in seconds. -/
def setStatus (job : Job) (now : Int) (status : String) :
    Job × Except String StatusWrite :=
  let job := { job with status := some status }
  match isValid status with
  | Except.error e => (job, Except.error e)
  | Except.ok _ => (job, Except.ok ⟨status, now - job.runDatetime⟩)

namespace Signal

def HOLD : String := "HOLD"

def SELL : String := "SELL"

def BUY : String := "BUY"

end Signal

/-- The row `Signal.set` appends to the `Signals` table. -/
structure SignalRow where
  jobId : String
  name : String
  datetime : String
  action : String
  confidence : ℚ
deriving DecidableEq, Repr

/-- Numeric view of a Python value: `isinstance(confidence, float) or
isinstance(confidence, int)`. -/
def asNum : PyValue → Option ℚ
  | PyValue.int n => some (n : ℚ)
  | PyValue.float q => some q
  | _ => Option.none

/-- Signal.set: rejects actions outside HOLD/SELL/BUY and non-numeric
confidences; the source's numeric range check is the chained comparison
`0 >= confidence >= 1`, i.e. `0 ≥ c ∧ c ≥ 1`, embedded verbatim. On success
it assigns `_previous_action`, `action`, the 2-dp-rounded `confidence`, and
appends a row. -/
def signalSet (s : SignalState) (jobId dt action : String) (confidence : PyValue) :
    Except String (SignalState × SignalRow) :=
  if action ∉ [Signal.HOLD, Signal.SELL, Signal.BUY] then
    Except.error "Signal status must be either \"hold\", \"sell\" or \"buy\"!"
  else
    match asNum confidence with
    | Option.none => Except.error "Confidence must be a float (0-1)"
    | some q =>
      if 0 ≥ q ∧ q ≥ 1 then Except.error "Confidence must be a float (0-1)"
      else
        let rounded := pyRound q 2
        let s2 : SignalState :=
          { s with previousAction := some action, action := some action,
                   confidence := some rounded }
        Except.ok (s2, ⟨jobId, s.name, dt, action, rounded⟩)

/-- Signal.has_changed: `self._previous_action != self.action`. -/
def hasChanged (s : SignalState) : Bool :=
  if s.previousAction = s.action then false else true

/-- In-memory state of a `StoredValue` instance: `_round_dp` (the optional
`round_dp` variable), `job_id`, `key`, `value`. -/
structure StoredValueState where
  roundDp : Option Nat
  jobId : String
  key : String
  value : Option PyValue
deriving DecidableEq, Repr

/-- The row `StoredValue.set` appends to the `StoredValues` table. -/
structure StoredValueRow where
  jobId : String
  datetime : String
  key : String
  value : PyValue
deriving DecidableEq, Repr

/-- StoredValue._round: `if self._round_dp:` is Python truthiness, so both a
missing and a zero precision leave the number unrounded. -/
def svRound (roundDp : Option Nat) (number : ℚ) : ℚ :=
  match roundDp with
  | some dp => if dp = 0 then number else pyRound number dp
  | Option.none => number

/-- StoredValue.set: `self.value` gets the rounded number when the value is a
float, the value unchanged otherwise; the appended row's `value` field is the
original `value` argument. -/
def storedValueSet (sv : StoredValueState) (dt : String) (value : PyValue) :
    StoredValueState × StoredValueRow :=
  let newValue := match value with
    | PyValue.float q => PyValue.float (svRound sv.roundDp q)
    | v => v
  ({ sv with value := some newValue }, ⟨sv.jobId, dt, sv.key, value⟩)

/-- Job.do_work: clears `self.error`, invokes the calculation function once;
a raised exception is modelled as the function returning the job state at the
raise point together with `some` stringified message, which is stored as the
job's error and never re-raised. -/
def doWork (job : Job) (calculationFunction : Job → Job × Option String) : Job :=
  let job := { job with error := Option.none }
  match calculationFunction job with
  | (job2, some msg) => { job2 with error := some msg }
  | (job2, Option.none) => job2

/-- An outbound email from the Emailer: the success report
(`signal_change`) or the failure notice (`job_failure`). -/
inductive Notification where
  | signalChange (toAddress : String)
  | jobFailure (toAddress : String)
deriving DecidableEq, Repr

/-- Observable outcome of `finish_and_return_code`: the final job state, the
status-row writes performed, the emails sent, and the returned exit code. -/
structure FinishResult where
  job : Job
  statusWrites : List StatusWrite
  notifications : List Notification
  code : Int
deriving DecidableEq, Repr

/-- Job.finish_and_return_code: on a truthy captured error it transitions to
FAILED, sends the failure notice and returns FAIL_CODE; otherwise it
transitions to SUCCESS, sends the success report exactly when
`self.signal.has_changed() or force_email` (the `_emailer` attribute is always
a constructed, truthy object), and returns SUCCESS_CODE. -/
def finishAndReturnCode (job : Job) (now : Int) (forceEmail : Bool) : FinishResult :=
  if pyTruthy job.error then
    let (job2, write) := setStatus job now JobStatus.FAILED
    { job := job2,
      statusWrites := match write with | Except.ok w => [w] | Except.error _ => [],
      notifications := [Notification.jobFailure job.email],
      code := JobStatus.FAIL_CODE }
  else
    let (job2, write) := setStatus job now JobStatus.SUCCESS
    { job := job2,
      statusWrites := match write with | Except.ok w => [w] | Except.error _ => [],
      notifications :=
        if hasChanged job.signal || forceEmail then
          [Notification.signalChange job.email]
        else [],
      code := JobStatus.SUCCESS_CODE }

lemma pyRound_two : pyRound 2 2 = 2 := by
  unfold pyRound roundHalfEven; norm_num

lemma pyRound_half : pyRound (1 / 2) 2 = 1 / 2 := by
  unfold pyRound roundHalfEven; norm_num

lemma pyRound_pi : pyRound (314159 / 100000) 2 = 157 / 50 := by
  unfold pyRound roundHalfEven; norm_num

lemma pyRound_threeFifths : pyRound (3 / 5) 2 = 3 / 5 := by
  unfold pyRound roundHalfEven; norm_num

/-- C1: the claim says `Signal.set` raises for every numeric confidence ≤ 0 or
≥ 1; on the code the chained range check `0 >= confidence >= 1` is
unsatisfiable, so the out-of-range confidence 2.0 is accepted and a row with
confidence 2 is appended instead of raising. -/
theorem c1_out_of_range_confidence_accepted :
    signalSet ⟨Option.none, "test", Option.none, Option.none⟩ "job1" "20230101000000"
        "BUY" (PyValue.float 2) =
      Except.ok (⟨some "BUY", "test", some "BUY", some 2⟩,
        ⟨"job1", "test", "20230101000000", "BUY", 2⟩) := by
  simp [signalSet, asNum, Signal.HOLD, Signal.SELL, Signal.BUY, pyRound_two]

/-- C2: the claim says `has_changed()` is true when the action set this run
differs from the action loaded at construction; on the code `set` assigns
`_previous_action` the new action before the comparison, so after loading
action HOLD and setting BUY, `has_changed()` evaluates to false. -/
theorem c2_has_changed_false_after_action_change :
    signalSet ⟨Option.none, "test", some "HOLD", some (1 / 2)⟩ "job1" "20230102000000"
        "BUY" (PyValue.float (1 / 2)) =
      Except.ok (⟨some "BUY", "test", some "BUY", some (1 / 2)⟩,
        ⟨"job1", "test", "20230102000000", "BUY", 1 / 2⟩) ∧
    (some "HOLD" : Option String) ≠ some "BUY" ∧
    hasChanged ⟨some "BUY", "test", some "BUY", some (1 / 2)⟩ = false := by
  refine ⟨?_, by decide, by rfl⟩
  simp [signalSet, asNum, Signal.HOLD, Signal.SELL, Signal.BUY]
  norm_num [pyRound_half]

/-- C3 counterexample: "success" is outside the fixed valid set, yet
`set_status` does not fail — validation uppercases first, so the row update
`{status: "success", seconds_elapsed: 5}` is emitted. -/
theorem c3_lowercase_status_accepted :
    ("success" ∉ JobStatus.VALID) ∧
    (setStatus ⟨Option.none, Option.none, 0, ⟨Option.none, "test", Option.none, Option.none⟩,
        "e@x"⟩ 5 "success").2 =
      Except.ok ⟨"success", 5⟩ := by
  refine ⟨by decide, by rfl⟩

/-- C3 amended: for every string in the valid set `set_status` persists
exactly that string with a non-negative elapsed-seconds value (when the
current time is not before the run timestamp); it fails, writing nothing,
exactly for strings whose uppercased form is outside the set, and persists
any string whose uppercased form is in the set as given. -/
theorem c3_status_validation_case_insensitive (job : Job) (now : Int) (s : String)
    (h : job.runDatetime ≤ now) :
    (s ∈ JobStatus.VALID → pyUpper s ∈ JobStatus.VALID) ∧
    (pyUpper s ∈ JobStatus.VALID →
      (setStatus job now s).2 = Except.ok ⟨s, now - job.runDatetime⟩ ∧
        0 ≤ now - job.runDatetime) ∧
    (pyUpper s ∉ JobStatus.VALID →
      (setStatus job now s).2 = Except.error "\x7b\x7d is an invalid status!") := by
  refine ⟨?_, ?_, ?_⟩
  · intro hs
    simp [JobStatus.VALID, JobStatus.INITIATED, JobStatus.REQUESTING, JobStatus.CALCULATING,
      JobStatus.FAILED, JobStatus.SUCCESS] at hs
    rcases hs with rfl | rfl | rfl | rfl | rfl <;> decide
  · intro hu
    refine ⟨?_, by omega⟩
    simp [setStatus, isValid, hu]
  · intro hn
    simp [setStatus, isValid, hn]

/-- C3 witness: the amended theorem applied at a concrete job with run
timestamp 0, current time 5 and status "FAILED". -/
theorem c3_status_validation_case_insensitive_witness :
    (setStatus ⟨Option.none, Option.none, 0, ⟨Option.none, "test", Option.none, Option.none⟩,
        "e@x"⟩ 5 "FAILED").2 =
      Except.ok ⟨"FAILED", 5 - 0⟩ ∧ (0 : Int) ≤ 5 - 0 :=
  (c3_status_validation_case_insensitive
    ⟨Option.none, Option.none, 0, ⟨Option.none, "test", Option.none, Option.none⟩, "e@x"⟩
    5 "FAILED" (by decide)).2.1 (by decide)

/-- C4 counterexample: storing 3.14159 with precision 2 sets the in-memory
current value to 3.14 but the appended row records the original 3.14159, not
3.14 as the claim states. -/
theorem c4_row_stores_unrounded_value :
    storedValueSet ⟨some 2, "job1", "x", Option.none⟩ "20230101000000"
        (PyValue.float (314159 / 100000)) =
      (⟨some 2, "job1", "x", some (PyValue.float (157 / 50))⟩,
       ⟨"job1", "20230101000000", "x", PyValue.float (314159 / 100000)⟩) ∧
    PyValue.float (314159 / 100000) ≠ PyValue.float (157 / 50) := by
  constructor
  · simp [storedValueSet, svRound, pyRound_pi]
  · simp only [ne_eq, PyValue.float.injEq]
    norm_num

/-- C4 amended: with a nonzero precision configured, `StoredValue.set` keeps
the rounded float as the in-memory current value while the appended row
records the original unrounded value; integers and strings pass through
unrounded in both places. -/
theorem c4_rounding_in_memory_only (sv : StoredValueState) (dt : String) (q : ℚ)
    (n : Int) (str : String) (dp : Nat) (h : sv.roundDp = some dp) (hdp : dp ≠ 0) :
    (storedValueSet sv dt (PyValue.float q)).1.value = some (PyValue.float (pyRound q dp)) ∧
    (storedValueSet sv dt (PyValue.float q)).2.value = PyValue.float q ∧
    (storedValueSet sv dt (PyValue.int n)).1.value = some (PyValue.int n) ∧
    (storedValueSet sv dt (PyValue.int n)).2.value = PyValue.int n ∧
    (storedValueSet sv dt (PyValue.str str)).1.value = some (PyValue.str str) ∧
    (storedValueSet sv dt (PyValue.str str)).2.value = PyValue.str str := by
  refine ⟨?_, rfl, rfl, rfl, rfl, rfl⟩
  simp [storedValueSet, svRound, h, hdp]

/-- C4 witness: the amended theorem applied at precision 2 and value
3.14159. -/
theorem c4_rounding_in_memory_only_witness :
    (storedValueSet ⟨some 2, "job1", "x", Option.none⟩ "20230101000000"
        (PyValue.float (314159 / 100000))).1.value =
      some (PyValue.float (pyRound (314159 / 100000) 2)) ∧
    (storedValueSet ⟨some 2, "job1", "x", Option.none⟩ "20230101000000"
        (PyValue.float (314159 / 100000))).2.value = PyValue.float (314159 / 100000) ∧
    (storedValueSet ⟨some 2, "job1", "x", Option.none⟩ "20230101000000"
        (PyValue.int 7)).1.value = some (PyValue.int 7) ∧
    (storedValueSet ⟨some 2, "job1", "x", Option.none⟩ "20230101000000"
        (PyValue.int 7)).2.value = PyValue.int 7 ∧
    (storedValueSet ⟨some 2, "job1", "x", Option.none⟩ "20230101000000"
        (PyValue.str "s")).1.value = some (PyValue.str "s") ∧
    (storedValueSet ⟨some 2, "job1", "x", Option.none⟩ "20230101000000"
        (PyValue.str "s")).2.value = PyValue.str "s" :=
  c4_rounding_in_memory_only ⟨some 2, "job1", "x", Option.none⟩ "20230101000000"
    (314159 / 100000) 7 "s" 2 rfl (by decide)

/-- C5: the claim says the success report is sent whenever the Signal's
action changed this run; on the code a run that loads action HOLD and sets
BUY (a genuine change, no error captured) transitions to SUCCESS but sends no
notification at all, because `set` leaves `_previous_action` equal to the new
action and `has_changed()` is therefore false. -/
theorem c5_changed_signal_sends_no_report :
    signalSet ⟨Option.none, "test", some "HOLD", some (7 / 10)⟩ "job1" "20230102000000"
        "BUY" (PyValue.float (3 / 5)) =
      Except.ok (⟨some "BUY", "test", some "BUY", some (3 / 5)⟩,
        ⟨"job1", "test", "20230102000000", "BUY", 3 / 5⟩) ∧
    (some "HOLD" : Option String) ≠ some "BUY" ∧
    (finishAndReturnCode ⟨some "CALCULATING", Option.none, 0,
        ⟨some "BUY", "test", some "BUY", some (3 / 5)⟩, "ops@x"⟩ 3 false).notifications = [] ∧
    (finishAndReturnCode ⟨some "CALCULATING", Option.none, 0,
        ⟨some "BUY", "test", some "BUY", some (3 / 5)⟩, "ops@x"⟩ 3 false).code =
      JobStatus.SUCCESS_CODE := by
  refine ⟨?_, by decide, by rfl, by rfl⟩
  simp [signalSet, asNum, Signal.HOLD, Signal.SELL, Signal.BUY]
  norm_num [pyRound_threeFifths]

/-- C6: the claim says the generated sortby clause sorts null rows last; the
generated `ORDER BY CASE WHEN col IS null THEN 'ZZZZZZZZZZZZZZ' else col END
DESC` substitutes a high sentinel and sorts descending, so against digit
timestamps the null row comes first: ordering a non-null timestamp row and a
null row returns the null row first. -/
theorem c6_null_rows_sort_first :
    selectSql "Signals" ColumnsArg.all
        (some (Condition.dict [("name", CondVal.scalar "test")])) (some "datetime") false =
      "SELECT * FROM Signals WHERE name = \"test\" ORDER BY CASE WHEN datetime IS null THEN \x27ZZZZZZZZZZZZZZ\x27 else datetime END DESC;" ∧
    orderBySortbyDesc [some "20230101000000", Option.none] =
      [Option.none, some "20230101000000"] := by
  refine ⟨by rfl, by rfl⟩

/-- C7 counterexample: a calculation function that raises an exception whose
string form is empty is caught and stored, but the captured `""` is falsy, so
`finish_and_return_code` takes the SUCCESS path and returns the success exit
code — not "always the failure exit code" as the claim states. -/
theorem c7_empty_error_message_yields_success :
    (doWork ⟨Option.none, Option.none, 0, ⟨Option.none, "test", Option.none, Option.none⟩,
        "e@x"⟩ (fun j => (j, some ""))).error = some "" ∧
    (finishAndReturnCode
      (doWork ⟨Option.none, Option.none, 0, ⟨Option.none, "test", Option.none, Option.none⟩,
        "e@x"⟩ (fun j => (j, some ""))) 1 false).code = JobStatus.SUCCESS_CODE ∧
    (finishAndReturnCode
      (doWork ⟨Option.none, Option.none, 0, ⟨Option.none, "test", Option.none, Option.none⟩,
        "e@x"⟩ (fun j => (j, some ""))) 1 false).statusWrites =
      [⟨JobStatus.SUCCESS, 1⟩] := by
  refine ⟨by rfl, by rfl, by rfl⟩

/-- C7 amended: do_work stores the stringified failure and never re-raises;
composed with finish_and_return_code, whenever the exception's string form is
non-empty the run yields the failure exit code, a FAILED status write, the
failure notification, and the error text present on the finished job. -/
theorem c7_nonempty_error_yields_failure (job j2 : Job) (fn : Job → Job × Option String)
    (msg : String) (now : Int)
    (h : fn { job with error := Option.none } = (j2, some msg)) (hmsg : msg ≠ "") :
    (doWork job fn).error = some msg ∧
    (finishAndReturnCode (doWork job fn) now false).code = JobStatus.FAIL_CODE ∧
    (finishAndReturnCode (doWork job fn) now false).statusWrites =
      [⟨JobStatus.FAILED, now - j2.runDatetime⟩] ∧
    (finishAndReturnCode (doWork job fn) now false).notifications =
      [Notification.jobFailure j2.email] ∧
    (finishAndReturnCode (doWork job fn) now false).job.error = some msg := by
  have hdw : doWork job fn = { j2 with error := some msg } := by
    simp only [doWork]
    rw [h]
  have hv : isValid JobStatus.FAILED = Except.ok true := by rfl
  rw [hdw]
  refine ⟨rfl, ?_, ?_, ?_, ?_⟩ <;>
    simp [finishAndReturnCode, pyTruthy, hmsg, setStatus, hv]

/-- C7 witness: the amended theorem applied to a concrete job and a
calculation function raising an exception stringifying to "boom". -/
theorem c7_nonempty_error_yields_failure_witness :
    (doWork ⟨Option.none, Option.none, 0, ⟨Option.none, "test", Option.none, Option.none⟩,
        "e@x"⟩ (fun j => (j, some "boom"))).error = some "boom" ∧
    (finishAndReturnCode
      (doWork ⟨Option.none, Option.none, 0, ⟨Option.none, "test", Option.none, Option.none⟩,
        "e@x"⟩ (fun j => (j, some "boom"))) 7 false).code = JobStatus.FAIL_CODE ∧
    (finishAndReturnCode
      (doWork ⟨Option.none, Option.none, 0, ⟨Option.none, "test", Option.none, Option.none⟩,
        "e@x"⟩ (fun j => (j, some "boom"))) 7 false).statusWrites =
      [⟨JobStatus.FAILED, 7 - 0⟩] ∧
    (finishAndReturnCode
      (doWork ⟨Option.none, Option.none, 0, ⟨Option.none, "test", Option.none, Option.none⟩,
        "e@x"⟩ (fun j => (j, some "boom"))) 7 false).notifications =
      [Notification.jobFailure "e@x"] ∧
    (finishAndReturnCode
      (doWork ⟨Option.none, Option.none, 0, ⟨Option.none, "test", Option.none, Option.none⟩,
        "e@x"⟩ (fun j => (j, some "boom"))) 7 false).job.error = some "boom" :=
  c7_nonempty_error_yields_failure
    ⟨Option.none, Option.none, 0, ⟨Option.none, "test", Option.none, Option.none⟩, "e@x"⟩
    ⟨Option.none, Option.none, 0, ⟨Option.none, "test", Option.none, Option.none⟩, "e@x"⟩
    (fun j => (j, some "boom")) "boom" 7 rfl (by decide)

/-- C8 counterexample: a value containing a double quote is embedded verbatim
by `insert` (no escaping at all), differing from the escaped rendering the
claim requires; `update` is the path that escapes. -/
theorem c8_insert_embeds_quote_verbatim :
    insertSql "Jobs" [("name", some "a\"b")] =
      "INSERT INTO Jobs (name) VALUES (\"a\"b\");" ∧
    insertSql "Jobs" [("name", some "a\"b")] ≠
      "INSERT INTO Jobs (name) VALUES (\"a\x27b\");" ∧
    updateSql "Jobs" [("status", some "a\"b")]
        (some (Condition.dict [("id", CondVal.scalar "1")])) =
      "UPDATE Jobs SET \"status\"=\"a\x27b\" WHERE id = \"1\";" := by
  refine ⟨by rfl, by decide, by rfl⟩

/-- C8 amended: only `update` (through `_clean_string`) escapes double quotes
in values, replacing each by a single quote so none survives inside the
quoted literal; `insert` embeds the value verbatim with no escaping. -/
theorem c8_update_escapes_insert_verbatim (table col v : String) (cond : Option Condition) :
    dquote ∉ (replaceQuote v).data ∧
    cleanString (some v) = "\"" ++ replaceQuote v ++ "\"" ∧
    updateSql table [(col, some v)] cond =
      "UPDATE " ++ table ++ " SET " ++ ("\"" ++ col ++ "\"=" ++ cleanString (some v)) ++
        generateCondition cond ++ ";" ∧
    insertSql table [(col, some v)] =
      "INSERT INTO " ++ table ++ " (" ++ col ++ ") VALUES (" ++ ("\"" ++ v ++ "\"") ++ ");" := by
  refine ⟨?_, rfl, rfl, rfl⟩
  intro hmem
  rcases List.mem_map.mp hmem with ⟨c, -, hc⟩
  by_cases hq : c = dquote
  · rw [hq, if_pos rfl] at hc
    exact absurd hc (by decide)
  · rw [if_neg hq] at hc
    exact hq hc

/-- C9: the condition grammar matches the specification: list values render
as an `in (...)` membership clause, scalars as a double-quoted equality,
multiple mapping entries are joined with AND, a raw string is embedded as
given, and an absent condition produces no WHERE clause. -/
theorem c9_condition_grammar :
    (∀ c : Option Condition, generateCondition c = conditionClauseSpec c) ∧
    generateCondition (some (Condition.dict
        [("name", CondVal.scalar "test"), ("id", CondVal.vlist ["a", "b"])])) =
      " WHERE name = \"test\" AND id in (a,b)" ∧
    generateCondition (some (Condition.raw "datetime > \"20230101000000\"")) =
      " WHERE datetime > \"20230101000000\"" ∧
    generateCondition Option.none = "" := by
  refine ⟨?_, by rfl, by rfl, by rfl⟩
  intro c
  cases c with
  | none => rfl
  | some cond =>
    cases cond with
    | raw s => rfl
    | dict d =>
      cases d with
      | nil => rfl
      | cons x xs => rfl

/-- C10: `set_status` with any string overwrites the in-memory status before
validating, so on an invalid string the call errors without any database
write while the in-memory status keeps the invalid string. -/
theorem c10_invalid_status_overwrites_memory :
    (∀ (job : Job) (now : Int) (s : String), ((setStatus job now s).1).status = some s) ∧
    (∀ (job : Job) (now : Int) (s : String), pyUpper s ∉ JobStatus.VALID →
      (setStatus job now s).2 = Except.error "\x7b\x7d is an invalid status!") := by
  constructor
  · intro job now s
    rcases hval : isValid s with e | b <;> simp [setStatus, hval]
  · intro job now s hn
    simp [setStatus, isValid, hn]

/-- C10 witness: the theorem applied at the invalid status string "bogus". -/
theorem c10_invalid_status_overwrites_memory_witness :
    ((setStatus ⟨Option.none, Option.none, 0, ⟨Option.none, "test", Option.none, Option.none⟩,
        "e@x"⟩ 0 "bogus").1).status = some "bogus" ∧
    (setStatus ⟨Option.none, Option.none, 0, ⟨Option.none, "test", Option.none, Option.none⟩,
        "e@x"⟩ 0 "bogus").2 = Except.error "\x7b\x7d is an invalid status!" :=
  ⟨c10_invalid_status_overwrites_memory.1
      ⟨Option.none, Option.none, 0, ⟨Option.none, "test", Option.none, Option.none⟩, "e@x"⟩
      0 "bogus",
   c10_invalid_status_overwrites_memory.2
      ⟨Option.none, Option.none, 0, ⟨Option.none, "test", Option.none, Option.none⟩, "e@x"⟩
      0 "bogus" (by decide)⟩

end AutoCrypto
